import Mathlib

/-!
Verification development for the Santa Says game (CityOfBunbury/santa-says).

Shallow embedding of the command/validation core:
* `SantaState`, `generateCommand`, `validateMove`, `santaReset`
  embed `SantaController` from `src/js/santa.js` (the hard-mode-aware
  controller).  Every `Math.random()` consulted by `generateCommand` is
  passed in explicitly through a `Draws` record, so the generator is a
  pure function of its random draws.
* `World`, `runW` embed the controller together with the browser timer
  queue (`setTimeout` / `clearTimeout`), for the urgency-escalation
  state machine.
* `GameState`, `step`, `run` embed the `Game` controller from
  `src/js/game.js` (waypoint navigation, win/trap routing) as an
  event-driven transition system.
* `Game2State` embeds the trap-recovery part of the newer game
  controller variant shipped in the repository (`src/unnamed/part_004`),
  which carries the hard-mode difficulty switch between `resetToStart`
  and `resumeFromCurrentPosition`.

Display strings (speech-bubble HTML, trap messages) are presentation
only and are not modelled; reason codes are modelled exactly.
-/

/-- The three symbolic directions used by the maze mode
(`'forward' | 'left' | 'right'` in the JS). -/
inductive Dir : Type
  | forward
  | left
  | right
deriving DecidableEq, Repr

/-- Reason codes used by `validateMove` and `triggerTrap`
(`'simon_says' | 'didnt_say' | 'correct' | 'wrong_direction' |
'timeout' | 'time'` in the JS). -/
inductive RC : Type
  | simon_says
  | didnt_say
  | correct
  | wrong_direction
  | timeout
  | time
deriving DecidableEq, Repr

/-- `allDirections` as used inside `generateCommand`. -/
def allDirections : List Dir := [Dir.forward, Dir.left, Dir.right]

/-- The result object of `SantaController.validateMove`
(the human-readable `message` field is presentation only and omitted). -/
structure ValidationResult : Type where
  valid : Bool
  reason : RC
deriving DecidableEq, Repr

/-- The command object returned by `SantaController.generateCommand`:
`{ direction, isSantaSays, isCorrectPath, isSimonSays }`. -/
structure Command : Type where
  direction : Dir
  isSantaSays : Bool
  isCorrectPath : Bool
  isSimonSays : Bool
deriving DecidableEq, Repr

/-- The mutable fields of `SantaController` that carry game logic
(DOM handles and display phrase tables omitted).  `urgencyTimeout`
keeps the id of the pending escalation timer, as in the JS field. -/
structure SantaState : Type where
  hardMode : Bool
  currentDirection : Option Dir
  correctDirection : Option Dir
  isSantaSays : Bool
  isSimonSays : Bool
  isUrgent : Bool
  urgencyTimeout : Option Nat
  /-- delay before urgency escalation, in milliseconds -/
  urgencyDelay : Nat
  trickProbability : ℚ
  simonSaysProbability : ℚ
  consecutiveTricks : Nat
  maxConsecutiveTricks : Nat
deriving DecidableEq, Repr

/-- `new SantaController(hardMode)`: constructor defaults
(trick chance 0.40, Simon-Says chance 0.30, urgency delay 4000 ms,
at most 2 consecutive tricks). -/
def initialSantaState (hardMode : Bool) : SantaState :=
  { hardMode := hardMode
    currentDirection := none
    correctDirection := none
    isSantaSays := true
    isSimonSays := false
    isUrgent := false
    urgencyTimeout := none
    urgencyDelay := 4000
    trickProbability := mkRat 2 5
    simonSaysProbability := mkRat 3 10
    consecutiveTricks := 0
    maxConsecutiveTricks := 2 }

/-- The outcomes of the `Math.random()` calls consulted by one
`generateCommand` call, in source order.  Draws on branches the code
does not take are simply ignored, exactly as the corresponding
`Math.random()` call never happens. -/
structure Draws : Type where
  /-- compared against `trickProbability` to decide `isSantaSays` -/
  santaRoll : ℚ
  /-- compared against `simonSaysProbability` in hard mode -/
  simonRoll : ℚ
  /-- the `trickType` mixture selector for trick directions -/
  trickRoll : ℚ
  /-- index pick among `wrongDirections` -/
  wrongIdx : Nat
  /-- index pick among `allDirections` -/
  anyIdx : Nat
deriving DecidableEq, Repr

/-- The streak guard: `this.consecutiveTricks >= this.maxConsecutiveTricks`
forces a real command. -/
def genForced (s : SantaState) : Bool :=
  decide (s.consecutiveTricks ≥ s.maxConsecutiveTricks)

/-- `isSantaSays` decision: forced `true` after too many tricks,
otherwise `Math.random() > this.trickProbability`. -/
def genIsSantaSays (s : SantaState) (d : Draws) : Bool :=
  if genForced s then true else decide (d.santaRoll > s.trickProbability)

/-- The consecutive-trick counter after the call: reset to 0 when the
streak guard fires, then incremented on a trick and cleared on a real
command. -/
def genTricksAfter (s : SantaState) (d : Draws) : Nat :=
  let afterForce := if genForced s then 0 else s.consecutiveTricks
  if genIsSantaSays s d then 0 else afterForce + 1

/-- Hard-mode Simon-Says decision: among tricks only,
`Math.random() < this.simonSaysProbability`. -/
def genIsSimon (s : SantaState) (d : Draws) : Bool :=
  if s.hardMode && !(genIsSantaSays s d) then
    decide (d.simonRoll < s.simonSaysProbability)
  else false

/-- The commanded direction: the correct move for real commands and for
Simon-Says traps; for plain tricks, the 40/30/30 mixture of the correct
move, a wrong direction, and a fully random direction. -/
def genDirection (s : SantaState) (correctMove : Dir) (d : Draws) : Dir :=
  if genIsSantaSays s d then correctMove
  else if genIsSimon s d then correctMove
  else if d.trickRoll < mkRat 2 5 then correctMove
  else if d.trickRoll < mkRat 7 10 then
    let wrongDirections := allDirections.filter (fun x => decide (x ≠ correctMove))
    wrongDirections.getD (d.wrongIdx % wrongDirections.length) correctMove
  else
    allDirections.getD (d.anyIdx % 3) correctMove

/-- `SantaController.generateCommand(correctMove, availableMoves)`:
returns the command object and the updated controller state.
`availableMoves` is received but (as in the source) not consulted by
the direction choice.  The `clearUrgency()` first line and the timer
scheduling side effects are modelled in the `World` layer below. -/
def generateCommand (s : SantaState) (correctMove : Dir)
    (availableMoves : List Dir) (d : Draws) : Command × SantaState :=
  let _ := availableMoves
  let direction := genDirection s correctMove d
  (⟨direction, genIsSantaSays s d, decide (direction = correctMove), genIsSimon s d⟩,
   { s with
      correctDirection := some correctMove
      isSimonSays := genIsSimon s d
      consecutiveTricks := genTricksAfter s d
      currentDirection := some direction
      isSantaSays := genIsSantaSays s d
      isUrgent := false })

/-- `SantaController.validateMove(playerDirection)`: pure judgment on
the stored command state (the `clearUrgency()` first line is modelled
in the `World` layer).  First match wins: Simon-Says trap, then
missing "Santa says", then direction comparison against the stored
correct direction. -/
def validateMove (s : SantaState) (playerDirection : Dir) : ValidationResult :=
  if s.isSimonSays then ⟨false, RC.simon_says⟩
  else if s.isSantaSays = false then ⟨false, RC.didnt_say⟩
  else if some playerDirection = s.correctDirection then ⟨true, RC.correct⟩
  else ⟨false, RC.wrong_direction⟩

/-- `SantaController.reset()`: clears all command state
(the timer clearing is modelled in the consuming layers). -/
def santaReset (s : SantaState) : SantaState :=
  { s with
      urgencyTimeout := none
      currentDirection := none
      correctDirection := none
      isSantaSays := true
      isSimonSays := false
      isUrgent := false
      consecutiveTricks := 0 }

example :
    (generateCommand (initialSantaState false) Dir.left [Dir.left, Dir.right]
      ⟨1, 0, 0, 0, 0⟩).1 =
    ⟨Dir.left, true, true, false⟩ := by decide

example :
    (generateCommand (initialSantaState true) Dir.left [Dir.left, Dir.right]
      ⟨0, 0, 0, 0, 0⟩).1 =
    ⟨Dir.left, false, true, true⟩ := by decide

example :
    validateMove (generateCommand (initialSantaState false) Dir.left
      [Dir.left, Dir.right] ⟨0, 1, 1/2, 0, 0⟩).2 Dir.left =
    ⟨false, RC.didnt_say⟩ := by decide

/-- C1: for every issued command and every player direction,
`validateMove` judges by first-match order: a Simon-Says (decoy
authority) command is invalid with reason `simon_says`; otherwise a
command without "Santa says" is invalid with reason `didnt_say`
regardless of the chosen direction (even when it equals the correct
move); otherwise the correct direction is valid with reason `correct`;
otherwise invalid with reason `wrong_direction`. -/
theorem c1_validate_first_match_order (s : SantaState) (correctMove : Dir)
    (availableMoves : List Dir) (d : Draws) (playerDirection : Dir) :
    validateMove (generateCommand s correctMove availableMoves d).2 playerDirection =
      (if (generateCommand s correctMove availableMoves d).1.isSimonSays then
        ⟨false, RC.simon_says⟩
      else if !(generateCommand s correctMove availableMoves d).1.isSantaSays then
        ⟨false, RC.didnt_say⟩
      else if playerDirection = correctMove then ⟨true, RC.correct⟩
      else ⟨false, RC.wrong_direction⟩ : ValidationResult) := by
  simp only [generateCommand, validateMove]
  by_cases hSimon : genIsSimon s d = true <;>
    by_cases hSays : genIsSantaSays s d = true <;>
      simp [hSimon, hSays]

/-- C2: whenever the generated command is authorized ("Santa says"),
its direction equals the correct move of the active waypoint. -/
theorem c2_authorized_commands_never_lie (s : SantaState) (correctMove : Dir)
    (availableMoves : List Dir) (d : Draws)
    (h : (generateCommand s correctMove availableMoves d).1.isSantaSays = true) :
    (generateCommand s correctMove availableMoves d).1.direction = correctMove := by
  simp only [generateCommand] at h ⊢
  simp [genDirection, h]

theorem c2_authorized_commands_never_lie_witness :
    (generateCommand (initialSantaState false) Dir.right [Dir.left, Dir.right]
      ⟨1, 0, 0, 0, 0⟩).1.isSantaSays = true ∧
    (generateCommand (initialSantaState false) Dir.right [Dir.left, Dir.right]
      ⟨1, 0, 0, 0, 0⟩).1.direction = Dir.right :=
  ⟨by decide,
   c2_authorized_commands_never_lie (initialSantaState false) Dir.right
     [Dir.left, Dir.right] ⟨1, 0, 0, 0, 0⟩ (by decide)⟩

/-- C10: every Simon-Says (decoy authority) command — which only
arises in hard mode — is maximally tempting: its commanded direction
always equals the correct move of the active waypoint. -/
theorem c10_decoy_is_maximally_tempting (s : SantaState) (correctMove : Dir)
    (availableMoves : List Dir) (d : Draws)
    (h : (generateCommand s correctMove availableMoves d).1.isSimonSays = true) :
    (generateCommand s correctMove availableMoves d).1.direction = correctMove := by
  simp only [generateCommand] at h ⊢
  have hNotSays : genIsSantaSays s d = false := by
    by_contra hc
    simp only [Bool.not_eq_false] at hc
    simp [genIsSimon, hc] at h
  simp [genDirection, h, hNotSays]

theorem c10_decoy_is_maximally_tempting_witness :
    (generateCommand (initialSantaState true) Dir.left [Dir.left, Dir.right]
      ⟨0, 0, 0, 0, 0⟩).1.isSimonSays = true ∧
    (generateCommand (initialSantaState true) Dir.left [Dir.left, Dir.right]
      ⟨0, 0, 0, 0, 0⟩).1.direction = Dir.left :=
  ⟨by decide,
   c10_decoy_is_maximally_tempting (initialSantaState true) Dir.left
     [Dir.left, Dir.right] ⟨0, 0, 0, 0, 0⟩ (by decide)⟩

/-! ### Sequences of generated commands (consecutive-trick guard) -/

/-- The inputs of one `generateCommand` call: the active waypoint's
correct move, its available moves, and the turn's random draws. -/
structure GenInput : Type where
  correctMove : Dir
  availableMoves : List Dir
  draws : Draws
deriving DecidableEq, Repr

/-- Issue a sequence of commands, threading the controller state from
call to call exactly as consecutive `generateCommand` calls do. -/
def genSeq (s : SantaState) : List GenInput → List Command
  | [] => []
  | inp :: rest =>
    let r := generateCommand s inp.correctMove inp.availableMoves inp.draws
    r.1 :: genSeq r.2 rest

/-- All commands in the list are tricks (not "Santa says"). -/
def allTricks (l : List Command) : Bool :=
  l.all (fun c => !c.isSantaSays)

/-- Does the list contain `k` consecutive trick commands anywhere? -/
def hasTrickRun (k : Nat) : List Command → Bool
  | [] => decide (k = 0)
  | c :: rest =>
      (decide (k ≤ (c :: rest).length) && allTricks ((c :: rest).take k))
        || hasTrickRun k rest

/-- Tracking predicate: `c` tricks were issued immediately before the
list, and within the list every trick is issued with fewer than `m`
tricks already in the current streak. -/
def boundedRuns (m : Nat) : Nat → List Command → Bool
  | _, [] => true
  | c, cmd :: rest =>
      if cmd.isSantaSays then boundedRuns m 0 rest
      else decide (c < m) && boundedRuns m (c + 1) rest

lemma trick_not_forced (s : SantaState) (d : Draws)
    (h : genIsSantaSays s d = false) : genForced s = false := by
  by_contra hf
  simp only [Bool.not_eq_false] at hf
  simp [genIsSantaSays, hf] at h

lemma trick_counter_lt (s : SantaState) (d : Draws)
    (h : genIsSantaSays s d = false) :
    s.consecutiveTricks < s.maxConsecutiveTricks := by
  have hnf := trick_not_forced s d h
  simp only [genForced, decide_eq_false_iff_not, not_le] at hnf
  exact hnf

lemma gen_counter_after (s : SantaState) (cm : Dir) (av : List Dir) (d : Draws) :
    ((generateCommand s cm av d).2).consecutiveTricks =
      if (generateCommand s cm av d).1.isSantaSays then 0
      else s.consecutiveTricks + 1 := by
  simp only [generateCommand, genTricksAfter]
  by_cases h : genIsSantaSays s d = true
  · simp [h]
  · have hb : genIsSantaSays s d = false := by simpa using h
    rw [trick_not_forced s d hb]
    simp [hb]

lemma genSeq_boundedRuns (inputs : List GenInput) (s : SantaState) :
    boundedRuns s.maxConsecutiveTricks s.consecutiveTricks (genSeq s inputs) = true := by
  induction inputs generalizing s with
  | nil => rfl
  | cons inp rest ih =>
    simp only [genSeq, boundedRuns]
    have hmax : ((generateCommand s inp.correctMove inp.availableMoves inp.draws).2).maxConsecutiveTricks
        = s.maxConsecutiveTricks := rfl
    by_cases h : (generateCommand s inp.correctMove inp.availableMoves inp.draws).1.isSantaSays = true
    · rw [if_pos h]
      have := ih ((generateCommand s inp.correctMove inp.availableMoves inp.draws).2)
      rwa [hmax, gen_counter_after, if_pos h] at this
    · have hb : (generateCommand s inp.correctMove inp.availableMoves inp.draws).1.isSantaSays = false := by
        simpa using h
      rw [if_neg (by simp [hb])]
      have hlt : s.consecutiveTricks < s.maxConsecutiveTricks :=
        trick_counter_lt s inp.draws hb
      have htail := ih ((generateCommand s inp.correctMove inp.availableMoves inp.draws).2)
      rw [hmax, gen_counter_after, if_neg (by simp [hb])] at htail
      simp [hlt, htail]

lemma boundedRuns_take_allTricks (m : Nat) :
    ∀ (l : List Command) (c k : Nat), boundedRuns m c l = true →
      allTricks (l.take k) = true → k ≤ l.length → 1 ≤ k → c + k ≤ m := by
  intro l
  induction l with
  | nil =>
    intro c k _ _ hk h1
    simp only [List.length_nil] at hk
    omega
  | cons cmd rest ih =>
    intro c k hb ht hk h1
    obtain ⟨k', rfl⟩ : ∃ k', k = k' + 1 := ⟨k - 1, by omega⟩
    simp only [List.take_succ_cons, allTricks, List.all_cons, Bool.and_eq_true] at ht
    have hcmd : cmd.isSantaSays = false := by
      rcases ht with ⟨ht1, _⟩
      simpa using ht1
    simp only [boundedRuns, hcmd] at hb
    simp only [Bool.false_eq_true, if_false, Bool.and_eq_true, decide_eq_true_eq] at hb
    rcases hb with ⟨hlt, hb⟩
    rcases Nat.eq_zero_or_pos k' with hk0 | hk1
    · omega
    · have hts : allTricks (rest.take k') = true := by
        simpa [allTricks] using ht.2
      have := ih (c + 1) k' hb hts (by simpa using hk) hk1
      omega

lemma boundedRuns_no_run (m : Nat) :
    ∀ (l : List Command) (c : Nat), boundedRuns m c l = true →
      hasTrickRun (m + 1) l = false := by
  intro l
  induction l with
  | nil => intro c _; simp [hasTrickRun]
  | cons cmd rest ih =>
    intro c hb
    simp only [hasTrickRun, Bool.or_eq_false_iff]
    constructor
    · by_contra hcon
      simp only [Bool.and_eq_false_iff, not_or, Bool.not_eq_false] at hcon
      rcases hcon with ⟨hlen, hall⟩
      have hle : m + 1 ≤ (cmd :: rest).length := by simpa using hlen
      have := boundedRuns_take_allTricks m (cmd :: rest) c (m + 1) hb hall hle (by omega)
      omega
    · by_cases hcmd : cmd.isSantaSays = true
      · exact ih 0 (by simpa [boundedRuns, hcmd] using hb)
      · have hb' : boundedRuns m (c + 1) rest = true := by
          have hcf : cmd.isSantaSays = false := by simpa using hcmd
          simp only [boundedRuns, hcf] at hb
          simp only [Bool.false_eq_true, if_false, Bool.and_eq_true] at hb
          exact hb.2
        exact ih (c + 1) hb'

/-- Scenario E: a biased generator with decoy probability 1.0. -/
def scenarioEState : SantaState :=
  { initialSantaState false with trickProbability := 1 }

/-- Scenario E random draws: `santaRoll = 1/2` (below any probability-1
trick threshold), trick mixture selecting the fully-random branch. -/
def scenarioEDraws : Draws :=
  ⟨mkRat 1 2, mkRat 1 2, 1, 0, 0⟩

/-- Three consecutive draw requests for Scenario E. -/
def scenarioEInputs : List GenInput :=
  List.replicate 3 ⟨Dir.forward, [Dir.forward], scenarioEDraws⟩

/-- C5: in every sequence of generated commands, no more than
`maxConsecutiveTricks` unauthorized (trick) commands occur
back-to-back; once the streak reaches that length the next
`generateCommand` call is forced authorized with the streak counter
reset; in particular with decoy probability 1.0 and
`maxConsecutiveTricks = 2`, the third consecutive draw is authorized. -/
theorem c5_consecutive_trick_bound :
    (∀ (s : SantaState) (inputs : List GenInput),
        hasTrickRun (s.maxConsecutiveTricks + 1) (genSeq s inputs) = false)
    ∧ (∀ (s : SantaState) (cm : Dir) (av : List Dir) (d : Draws),
        s.consecutiveTricks ≥ s.maxConsecutiveTricks →
          (generateCommand s cm av d).1.isSantaSays = true ∧
          (generateCommand s cm av d).2.consecutiveTricks = 0)
    ∧ (genSeq scenarioEState scenarioEInputs).map Command.isSantaSays
        = [false, false, true] := by
  refine ⟨?_, ?_, by decide⟩
  · intro s inputs
    exact boundedRuns_no_run s.maxConsecutiveTricks (genSeq s inputs)
      s.consecutiveTricks (genSeq_boundedRuns inputs s)
  · intro s cm av d h
    have hforced : genForced s = true := by
      simp only [genForced, decide_eq_true_eq]
      exact h
    constructor
    · simp [generateCommand, genIsSantaSays, hforced]
    · simp [generateCommand, genTricksAfter, genIsSantaSays, hforced]

/-- Concrete instance for C5's forced-authorization clause: after two
tricks in a row (streak counter 2) the next command is authorized. -/
theorem c5_consecutive_trick_bound_witness :
    ({ initialSantaState false with consecutiveTricks := 2 } : SantaState).consecutiveTricks ≥
      ({ initialSantaState false with consecutiveTricks := 2 } : SantaState).maxConsecutiveTricks ∧
    (generateCommand { initialSantaState false with consecutiveTricks := 2 }
      Dir.forward [Dir.forward] scenarioEDraws).1.isSantaSays = true :=
  ⟨by decide,
   (c5_consecutive_trick_bound.2.1 { initialSantaState false with consecutiveTricks := 2 }
      Dir.forward [Dir.forward] scenarioEDraws (by decide)).1⟩

/-! ### Timer world: `SantaController` plus the browser timer queue -/

/-- The reason strings passed to the `onTimeout` callback
(`'timeout'` for an expired real command, `'patience'` for an expired
trick / Simon-Says command). -/
inductive TReason : Type
  | timeout
  | patience
deriving DecidableEq, Repr

/-- The callbacks `SantaController` schedules with `setTimeout`:
the first urgency stage (which captures the commanded direction), and
the final `onTimeout(reason)` call. -/
inductive TimerJob : Type
  | escalate (direction : Dir)
  | fire (r : TReason)
deriving DecidableEq, Repr

/-- A live `setTimeout` entry: handle id, absolute due time (ms),
scheduled callback. -/
structure Timer : Type where
  id : Nat
  due : Nat
  job : TimerJob
deriving DecidableEq, Repr

/-- Observable events of the controller: the `onCommand` callback, the
urgent redisplay (with the semantic flags it shows), the `onTimeout`
callback, and the return of `validateMove`. -/
inductive Hap : Type
  | commandIssued (c : Command)
  | urgentShown (direction : Dir) (isSantaSays : Bool) (isSimonSays : Bool)
  | timedOut (r : TReason)
  | resolved (res : ValidationResult)
deriving DecidableEq, Repr

/-- The controller together with the single-threaded timer queue and a
deterministic clock. -/
structure World : Type where
  now : Nat
  nextId : Nat
  timers : List Timer
  santa : SantaState
  log : List Hap
deriving DecidableEq, Repr

/-- `setTimeout(job, delay)`: allocate a fresh handle and enqueue. -/
def setTimeoutW (w : World) (j : TimerJob) (delay : Nat) : Nat × World :=
  (w.nextId,
   { w with
      timers := w.timers ++ [⟨w.nextId, w.now + delay, j⟩]
      nextId := w.nextId + 1 })

/-- `clearTimeout(id)`: drop the entry; clearing an already-fired
handle is a no-op, as in the browser. -/
def clearTimeoutW (w : World) (id : Nat) : World :=
  { w with timers := w.timers.filter (fun t => t.id ≠ id) }

/-- `SantaController.clearUrgency()`: clear the tracked pending timer,
if any, and null the handle field. -/
def clearUrgencyW (w : World) : World :=
  match w.santa.urgencyTimeout with
  | some id =>
    let w1 := clearTimeoutW w id
    { w1 with santa := { w1.santa with urgencyTimeout := none } }
  | none => w

/-- `generateCommand` with its side effects: clear any pending timer
first, compute the command, then schedule either the urgency
escalation (real command) or the patience timeout (trick / Simon Says),
and notify the `onCommand` observer. -/
def generateCommandW (w : World) (correctMove : Dir)
    (availableMoves : List Dir) (d : Draws) : World :=
  let w1 := clearUrgencyW w
  let r := generateCommand w1.santa correctMove availableMoves d
  let w2 := { w1 with santa := r.2 }
  let w3 :=
    if r.1.isSantaSays then
      let p := setTimeoutW w2 (TimerJob.escalate r.1.direction) w2.santa.urgencyDelay
      { p.2 with santa := { p.2.santa with urgencyTimeout := some p.1 } }
    else
      let p := setTimeoutW w2 (TimerJob.fire TReason.patience) w2.santa.urgencyDelay
      { p.2 with santa := { p.2.santa with urgencyTimeout := some p.1 } }
  { w3 with log := w3.log ++ [Hap.commandIssued r.1] }

/-- `validateMove` with its side effect: cancel the pending escalation
timer as the first action, then judge. -/
def validateMoveW (w : World) (playerDirection : Dir) : World :=
  let w1 := clearUrgencyW w
  { w1 with log := w1.log ++ [Hap.resolved (validateMove w1.santa playerDirection)] }

/-- The earliest-due timer (FIFO among equal due times, as in the
browser's timer queue). -/
def earliest : List Timer → Option Timer
  | [] => none
  | t :: rest =>
    match earliest rest with
    | none => some t
    | some u => if t.due ≤ u.due then some t else some u

/-- Execute a scheduled callback.  The urgency-escalation stage marks
the command urgent, redisplays it (semantic flags unchanged) and
schedules the final timeout; the final stage invokes `onTimeout`. -/
def fireJob (w : World) : TimerJob → World
  | TimerJob.escalate direction =>
    let w1 := { w with
      santa := { w.santa with isUrgent := true }
      log := w.log ++ [Hap.urgentShown direction w.santa.isSantaSays w.santa.isSimonSays] }
    let p := setTimeoutW w1 (TimerJob.fire TReason.timeout) w1.santa.urgencyDelay
    { p.2 with santa := { p.2.santa with urgencyTimeout := some p.1 } }
  | TimerJob.fire r => { w with log := w.log ++ [Hap.timedOut r] }

/-- Deterministic clock step: advance to the earliest pending timer and
run its callback (no-op when nothing is scheduled). -/
def tickW (w : World) : World :=
  match earliest w.timers with
  | none => w
  | some t =>
    fireJob { w with now := t.due, timers := w.timers.filter (fun u => u.id ≠ t.id) } t.job

/-- External operations on the controller world. -/
inductive WOp : Type
  | gen (correctMove : Dir) (availableMoves : List Dir) (d : Draws)
  | validate (playerDirection : Dir)
  | tick
deriving DecidableEq, Repr

def stepW (w : World) : WOp → World
  | WOp.gen cm av d => generateCommandW w cm av d
  | WOp.validate pd => validateMoveW w pd
  | WOp.tick => tickW w

def runW (w : World) : List WOp → World
  | [] => w
  | op :: rest => runW (stepW w op) rest

/-- The world at page load: fresh controller, empty timer queue. -/
def initialWorld (hardMode : Bool) : World :=
  { now := 0, nextId := 0, timers := [], santa := initialSantaState hardMode, log := [] }

/-- The at-most-one-live-timer invariant: either no timer is live, or
exactly one is live and it is the one tracked by `urgencyTimeout`. -/
def TimerInv (w : World) : Prop :=
  w.timers = [] ∨ ∃ t, w.timers = [t] ∧ w.santa.urgencyTimeout = some t.id

lemma clearUrgencyW_of_none (w : World) (hq : w.santa.urgencyTimeout = none) :
    clearUrgencyW w = w := by
  simp only [clearUrgencyW, hq]

lemma clearUrgencyW_timers_nil (w : World) (h : TimerInv w) :
    (clearUrgencyW w).timers = [] := by
  rcases h with h0 | ⟨t, ht, htr⟩
  · rcases hu : w.santa.urgencyTimeout with _ | id
    · simp [clearUrgencyW, hu, h0]
    · simp [clearUrgencyW, hu, clearTimeoutW, h0]
  · simp [clearUrgencyW, htr, clearTimeoutW, ht]

lemma generateCommandW_timers (w : World) (cm : Dir) (av : List Dir) (d : Draws)
    (h : TimerInv w) :
    ∃ t, (generateCommandW w cm av d).timers = [t] ∧
      (generateCommandW w cm av d).santa.urgencyTimeout = some t.id := by
  have hcl := clearUrgencyW_timers_nil w h
  simp only [generateCommandW]
  by_cases hs : (generateCommand (clearUrgencyW w).santa cm av d).1.isSantaSays = true
  · exact ⟨⟨(clearUrgencyW w).nextId,
      (clearUrgencyW w).now + (generateCommand (clearUrgencyW w).santa cm av d).2.urgencyDelay,
      TimerJob.escalate (generateCommand (clearUrgencyW w).santa cm av d).1.direction⟩,
      by simp [hs, setTimeoutW, hcl], by simp [hs, setTimeoutW]⟩
  · exact ⟨⟨(clearUrgencyW w).nextId,
      (clearUrgencyW w).now + (generateCommand (clearUrgencyW w).santa cm av d).2.urgencyDelay,
      TimerJob.fire TReason.patience⟩,
      by simp [hs, setTimeoutW, hcl], by simp [hs, setTimeoutW]⟩

lemma generateCommandW_inv (w : World) (cm : Dir) (av : List Dir) (d : Draws)
    (h : TimerInv w) : TimerInv (generateCommandW w cm av d) := by
  rcases generateCommandW_timers w cm av d h with ⟨t, h1, h2⟩
  exact Or.inr ⟨t, h1, h2⟩

lemma validateMoveW_timers (w : World) (pd : Dir) (h : TimerInv w) :
    (validateMoveW w pd).timers = [] := by
  simp only [validateMoveW]
  exact clearUrgencyW_timers_nil w h

lemma validateMoveW_inv (w : World) (pd : Dir) (h : TimerInv w) :
    TimerInv (validateMoveW w pd) :=
  Or.inl (validateMoveW_timers w pd h)

lemma tickW_of_no_timers (w : World) (h : w.timers = []) : tickW w = w := by
  simp [tickW, h, earliest]

lemma tickW_inv (w : World) (h : TimerInv w) : TimerInv (tickW w) := by
  rcases h with h0 | ⟨t, ht, htr⟩
  · rw [tickW_of_no_timers w h0]
    exact Or.inl h0
  · cases hj : t.job with
    | escalate dir =>
      refine Or.inr ⟨⟨w.nextId, t.due + w.santa.urgencyDelay,
        TimerJob.fire TReason.timeout⟩, ?_, ?_⟩ <;>
        simp [tickW, ht, earliest, hj, fireJob, setTimeoutW]
    | fire r =>
      refine Or.inl ?_
      simp [tickW, ht, earliest, hj, fireJob]

lemma stepW_inv (w : World) (op : WOp) (h : TimerInv w) : TimerInv (stepW w op) := by
  cases op with
  | gen cm av d => exact generateCommandW_inv w cm av d h
  | validate pd => exact validateMoveW_inv w pd h
  | tick => exact tickW_inv w h

lemma runW_inv (w : World) (ops : List WOp) (h : TimerInv w) :
    TimerInv (runW w ops) := by
  induction ops generalizing w with
  | nil => exact h
  | cons op rest ih => exact ih (stepW w op) (stepW_inv w op h)

lemma initialWorld_inv (hardMode : Bool) : TimerInv (initialWorld hardMode) :=
  Or.inl rfl

lemma runW_ticks_of_no_timers (w : World) (h : w.timers = []) (n : Nat) :
    runW w (List.replicate n WOp.tick) = w := by
  induction n with
  | zero => rfl
  | succ k ih =>
    simp only [List.replicate_succ, runW, stepW]
    rw [tickW_of_no_timers w h]
    exact ih

/-- C7: in every reachable controller world, at most one escalation
timer is live; `validateMove` cancels any pending timer as its first
action, so in a deterministic clock simulation no timeout can fire
after the turn has been resolved (further clock steps change nothing);
and issuing a new command likewise cancels the previous pending timer,
leaving exactly the newly scheduled one live. -/
theorem c7_validate_cancels_pending_timer (hardMode : Bool) (ops : List WOp)
    (pd cm : Dir) (av : List Dir) (d : Draws) (n : Nat) :
    (runW (initialWorld hardMode) ops).timers.length ≤ 1
    ∧ (validateMoveW (runW (initialWorld hardMode) ops) pd).timers = []
    ∧ runW (validateMoveW (runW (initialWorld hardMode) ops) pd)
        (List.replicate n WOp.tick)
      = validateMoveW (runW (initialWorld hardMode) ops) pd
    ∧ (generateCommandW (runW (initialWorld hardMode) ops) cm av d).timers.length = 1 := by
  have hinv : TimerInv (runW (initialWorld hardMode) ops) :=
    runW_inv (initialWorld hardMode) ops (initialWorld_inv hardMode)
  refine ⟨?_, ?_, ?_, ?_⟩
  · rcases hinv with h0 | ⟨t, ht, -⟩
    · simp [h0]
    · simp [ht]
  · exact validateMoveW_timers (runW (initialWorld hardMode) ops) pd hinv
  · exact runW_ticks_of_no_timers _
      (validateMoveW_timers (runW (initialWorld hardMode) ops) pd hinv) n
  · rcases generateCommandW_timers (runW (initialWorld hardMode) ops) cm av d hinv with
      ⟨t, ht, -⟩
    simp [ht]

lemma gen_state_urgencyDelay (s : SantaState) (cm : Dir) (av : List Dir) (d : Draws) :
    (generateCommand s cm av d).2.urgencyDelay = s.urgencyDelay := rfl

lemma gen_state_isSantaSays (s : SantaState) (cm : Dir) (av : List Dir) (d : Draws) :
    (generateCommand s cm av d).2.isSantaSays = (generateCommand s cm av d).1.isSantaSays := rfl

lemma gen_state_isSimonSays (s : SantaState) (cm : Dir) (av : List Dir) (d : Draws) :
    (generateCommand s cm av d).2.isSimonSays = (generateCommand s cm av d).1.isSimonSays := rfl

lemma gen_state_currentDirection (s : SantaState) (cm : Dir) (av : List Dir) (d : Draws) :
    (generateCommand s cm av d).2.currentDirection
      = some (generateCommand s cm av d).1.direction := rfl

lemma gen_state_correctDirection (s : SantaState) (cm : Dir) (av : List Dir) (d : Draws) :
    (generateCommand s cm av d).2.correctDirection = some cm := rfl

lemma genW_eq_of_quiescent (w : World) (cm : Dir) (av : List Dir) (d : Draws)
    (hq : w.santa.urgencyTimeout = none) (ht : w.timers = []) :
    generateCommandW w cm av d =
      { now := w.now
        nextId := w.nextId + 1
        timers := [⟨w.nextId, w.now + w.santa.urgencyDelay,
          if (generateCommand w.santa cm av d).1.isSantaSays then
            TimerJob.escalate (generateCommand w.santa cm av d).1.direction
          else TimerJob.fire TReason.patience⟩]
        santa := { (generateCommand w.santa cm av d).2 with urgencyTimeout := some w.nextId }
        log := w.log ++ [Hap.commandIssued (generateCommand w.santa cm av d).1] } := by
  rw [generateCommandW, clearUrgencyW_of_none w hq]
  by_cases hs : (generateCommand w.santa cm av d).1.isSantaSays = true
  · simp [hs, setTimeoutW, ht, gen_state_urgencyDelay]
  · simp only [Bool.not_eq_true] at hs
    simp [hs, setTimeoutW, ht, gen_state_urgencyDelay]

lemma tickW_genW_santa (w : World) (cm : Dir) (av : List Dir) (d : Draws)
    (hq : w.santa.urgencyTimeout = none) (ht : w.timers = [])
    (hs : (generateCommand w.santa cm av d).1.isSantaSays = true) :
    tickW (generateCommandW w cm av d) =
      { now := w.now + w.santa.urgencyDelay
        nextId := w.nextId + 2
        timers := [⟨w.nextId + 1,
          w.now + w.santa.urgencyDelay + w.santa.urgencyDelay,
          TimerJob.fire TReason.timeout⟩]
        santa := { (generateCommand w.santa cm av d).2 with
          isUrgent := true, urgencyTimeout := some (w.nextId + 1) }
        log := w.log ++ [Hap.commandIssued (generateCommand w.santa cm av d).1,
          Hap.urgentShown (generateCommand w.santa cm av d).1.direction true
            (generateCommand w.santa cm av d).1.isSimonSays] } := by
  rw [genW_eq_of_quiescent w cm av d hq ht, hs]
  have hsS : (generateCommand w.santa cm av d).2.isSantaSays = true := hs
  simp [tickW, earliest, fireJob, setTimeoutW, hsS,
    gen_state_urgencyDelay, gen_state_isSimonSays]

lemma tickW2_genW_santa (w : World) (cm : Dir) (av : List Dir) (d : Draws)
    (hq : w.santa.urgencyTimeout = none) (ht : w.timers = [])
    (hs : (generateCommand w.santa cm av d).1.isSantaSays = true) :
    tickW (tickW (generateCommandW w cm av d)) =
      { now := w.now + w.santa.urgencyDelay + w.santa.urgencyDelay
        nextId := w.nextId + 2
        timers := []
        santa := { (generateCommand w.santa cm av d).2 with
          isUrgent := true, urgencyTimeout := some (w.nextId + 1) }
        log := w.log ++ [Hap.commandIssued (generateCommand w.santa cm av d).1,
          Hap.urgentShown (generateCommand w.santa cm av d).1.direction true
            (generateCommand w.santa cm av d).1.isSimonSays,
          Hap.timedOut TReason.timeout] } := by
  rw [tickW_genW_santa w cm av d hq ht hs]
  simp [tickW, earliest, fireJob]

lemma tickW_genW_trick (w : World) (cm : Dir) (av : List Dir) (d : Draws)
    (hq : w.santa.urgencyTimeout = none) (ht : w.timers = [])
    (hs : (generateCommand w.santa cm av d).1.isSantaSays = false) :
    tickW (generateCommandW w cm av d) =
      { now := w.now + w.santa.urgencyDelay
        nextId := w.nextId + 1
        timers := []
        santa := { (generateCommand w.santa cm av d).2 with urgencyTimeout := some w.nextId }
        log := w.log ++ [Hap.commandIssued (generateCommand w.santa cm av d).1,
          Hap.timedOut TReason.patience] } := by
  rw [genW_eq_of_quiescent w cm av d hq ht, hs]
  simp [tickW, earliest, fireJob]

/-- C6 counterexample: a concrete unauthorized (trick) command with no
player response expires after a single grace delay (at 4000 ms, not
2 × 4000 ms) and never transitions to Urgent — no urgent redisplay
appears in the log — contradicting the claim that every issued command
goes `Issued → Urgent → Expired` with two delays. -/
theorem c6_counterexample :
    (runW (initialWorld false)
        [WOp.gen Dir.forward [Dir.forward] ⟨0, 0, 1, 0, 1⟩, WOp.tick, WOp.tick]).log
      = [Hap.commandIssued ⟨Dir.left, false, false, false⟩, Hap.timedOut TReason.patience]
    ∧ (runW (initialWorld false)
        [WOp.gen Dir.forward [Dir.forward] ⟨0, 0, 1, 0, 1⟩, WOp.tick, WOp.tick]).now
      = 4000 := by
  exact ⟨by decide, by decide⟩

/-- C6 (amended): an issued *authorized* command with no player
response transitions to Urgent after the grace delay `D` — a redisplay
of the same semantic instruction (same direction, same
`isSantaSays`/`isSimonSays` flags, only `isUrgent` changes) — and to
Expired after another `D`.  An unauthorized/decoy command instead
skips the Urgent phase and expires (patience path) after a single
delay `D`. -/
theorem c6_urgency_escalation (w : World) (cm : Dir) (av : List Dir) (d : Draws)
    (hq : w.santa.urgencyTimeout = none) (ht : w.timers = []) :
    ((generateCommand w.santa cm av d).1.isSantaSays = true →
      (tickW (generateCommandW w cm av d)).now = w.now + w.santa.urgencyDelay
      ∧ (tickW (generateCommandW w cm av d)).log
          = w.log ++ [Hap.commandIssued (generateCommand w.santa cm av d).1,
              Hap.urgentShown (generateCommand w.santa cm av d).1.direction true
                (generateCommand w.santa cm av d).1.isSimonSays]
      ∧ (tickW (generateCommandW w cm av d)).santa.currentDirection
          = some (generateCommand w.santa cm av d).1.direction
      ∧ (tickW (generateCommandW w cm av d)).santa.isSantaSays = true
      ∧ (tickW (generateCommandW w cm av d)).santa.isSimonSays
          = (generateCommand w.santa cm av d).1.isSimonSays
      ∧ (tickW (generateCommandW w cm av d)).santa.isUrgent = true
      ∧ (tickW (tickW (generateCommandW w cm av d))).now
          = w.now + w.santa.urgencyDelay + w.santa.urgencyDelay
      ∧ (tickW (tickW (generateCommandW w cm av d))).log
          = w.log ++ [Hap.commandIssued (generateCommand w.santa cm av d).1,
              Hap.urgentShown (generateCommand w.santa cm av d).1.direction true
                (generateCommand w.santa cm av d).1.isSimonSays,
              Hap.timedOut TReason.timeout])
    ∧ ((generateCommand w.santa cm av d).1.isSantaSays = false →
      (tickW (generateCommandW w cm av d)).now = w.now + w.santa.urgencyDelay
      ∧ (tickW (generateCommandW w cm av d)).log
          = w.log ++ [Hap.commandIssued (generateCommand w.santa cm av d).1,
              Hap.timedOut TReason.patience]) := by
  constructor
  · intro hs
    rw [tickW2_genW_santa w cm av d hq ht hs, tickW_genW_santa w cm av d hq ht hs]
    exact ⟨rfl, rfl, rfl, hs, rfl, rfl, rfl, rfl⟩
  · intro hs
    rw [tickW_genW_trick w cm av d hq ht hs]
    exact ⟨rfl, rfl⟩

/-- Concrete instance of the amended C6 at an authorized command. -/
theorem c6_urgency_escalation_witness :
    (generateCommand (initialWorld false).santa Dir.left [Dir.left]
      ⟨1, 0, 0, 0, 0⟩).1.isSantaSays = true
    ∧ (tickW (generateCommandW (initialWorld false) Dir.left [Dir.left]
        ⟨1, 0, 0, 0, 0⟩)).santa.isUrgent = true
    ∧ (tickW (tickW (generateCommandW (initialWorld false) Dir.left [Dir.left]
        ⟨1, 0, 0, 0, 0⟩))).log
      = [Hap.commandIssued ⟨Dir.left, true, true, false⟩,
         Hap.urgentShown Dir.left true false, Hap.timedOut TReason.timeout] := by
  have h := (c6_urgency_escalation (initialWorld false) Dir.left [Dir.left]
    ⟨1, 0, 0, 0, 0⟩ rfl rfl).1 (by decide)
  refine ⟨by decide, h.2.2.2.2.2.1, ?_⟩
  rw [h.2.2.2.2.2.2.2]
  decide

/-! ### Game controller (`src/js/game.js`) -/

/-- Waypoint kinds (`'start' | 'corridor' | 't-junction' | 'end'`;
`finish` stands for the source's `'end'`, a keyword in Lean). -/
inductive WKind : Type
  | start
  | corridor
  | tjunction
  | finish
deriving DecidableEq, Repr

/-- A waypoint of the solution path.  The facing angle is stored in
quarter turns (0 = East = angle 0, 1 = South = π/2; the source stores
radians) so the grid arithmetic stays exact. -/
structure Waypoint : Type where
  x : Int
  y : Int
  facing : Int
  type : WKind
  correctMove : Option Dir
  availableMoves : List Dir
deriving DecidableEq, Repr

/-- `SOLUTION_PATH`: the nine hand-authored waypoints of the 15×15
maze (start corridor, three T-junctions, end). -/
def SOLUTION_PATH : List Waypoint :=
  [ ⟨1, 1, 0, WKind.start, some Dir.forward, [Dir.forward]⟩
  , ⟨8, 1, 1, WKind.corridor, some Dir.forward, [Dir.forward]⟩
  , ⟨8, 3, 1, WKind.tjunction, some Dir.right, [Dir.left, Dir.right]⟩
  , ⟨3, 3, 1, WKind.corridor, some Dir.forward, [Dir.forward]⟩
  , ⟨3, 6, 1, WKind.tjunction, some Dir.left, [Dir.left, Dir.right]⟩
  , ⟨11, 6, 1, WKind.corridor, some Dir.forward, [Dir.forward]⟩
  , ⟨11, 9, 1, WKind.tjunction, some Dir.right, [Dir.left, Dir.right]⟩
  , ⟨3, 9, 1, WKind.corridor, some Dir.forward, [Dir.forward]⟩
  , ⟨3, 11, 1, WKind.finish, none, []⟩ ]

/-- Player pose; coordinates in half-cell units (the source stores
`waypoint.x + 0.5`), angle in quarter turns. -/
structure Pose : Type where
  halfX : Int
  halfY : Int
  angle : Int
deriving DecidableEq, Repr

/-- The pose the source derives from a waypoint: cell center, stored
facing angle. -/
def poseAt (wp : Waypoint) : Pose :=
  ⟨2 * wp.x + 1, 2 * wp.y + 1, wp.facing⟩

/-- Signals the game surfaces to its UI collaborators. -/
inductive Sig : Type
  | command (c : Command)
  | success
  | winSig
  | trap (reason : RC)
deriving DecidableEq, Repr

/-- The mutable state of `Game` that carries game logic.  The three
kinds of scheduled callbacks are modelled explicitly: the counts of
pending `giveNextCommand` and trap-reset `setTimeout` callbacks, and
Santa's single escalation/patience timer slot (the controller stores
one `urgencyTimeout` handle; the `TimerInv` theorem above shows at
most one such timer is ever live).  `winCount` counts emitted win
signals (ghost instrumentation, incremented exactly when `handleWin`
fires). -/
structure GameState : Type where
  santa : SantaState
  isPlaying : Bool
  canMove : Bool
  correctMoves : Nat
  movesToWin : Nat
  pathIndex : Nat
  player : Pose
  timeRemaining : Int
  totalTime : Int
  timerOn : Bool
  pendingCmd : Nat
  pendingTrapReset : Nat
  santaTimer : Option TimerJob
  winCount : Nat
deriving DecidableEq, Repr

/-- `Game.getCurrentWaypoint()`. -/
def getCurrentWaypoint (g : GameState) : Option Waypoint :=
  SOLUTION_PATH.get? g.pathIndex

/-- `Game.giveNextCommand()`: refuse when not playing or when the
current waypoint has no correct move (End); otherwise generate a
command for the waypoint's correct move, schedule Santa's timer
(escalation for a real command, patience timeout for a trick) and
re-enable movement. -/
def giveNextCommand (g : GameState) (d : Draws) : GameState × List Sig :=
  if g.isPlaying = false then (g, [])
  else
    match getCurrentWaypoint g with
    | none => (g, [])
    | some wp =>
      match wp.correctMove with
      | none => (g, [])
      | some cm =>
        let r := generateCommand g.santa cm wp.availableMoves d
        ({ g with
            santa := r.2
            santaTimer := some (if r.1.isSantaSays then
                TimerJob.escalate r.1.direction
              else TimerJob.fire TReason.patience)
            canMove := true },
         [Sig.command r.1])

/-- `Game.advancePlayer()`: move to the next waypoint and recompute
the pose from it when in bounds. -/
def advancePlayer (g : GameState) : GameState :=
  { g with
      pathIndex := g.pathIndex + 1
      player :=
        match SOLUTION_PATH.get? (g.pathIndex + 1) with
        | some wp => poseAt wp
        | none => g.player }

/-- `Game.handleWin()`. -/
def handleWin (g : GameState) : GameState × List Sig :=
  ({ g with
      isPlaying := false
      canMove := false
      timerOn := false
      winCount := g.winCount + 1 }, [Sig.winSig])

/-- `Game.handleCorrectMove()`: count the correct move, advance the
player (the walk-animation callback is applied atomically with the
move), then either win — when `correctMoves` reaches `movesToWin` —
or show success and schedule the next command. -/
def handleCorrectMove (g : GameState) : GameState × List Sig :=
  let g2 := advancePlayer { g with correctMoves := g.correctMoves + 1 }
  if g2.correctMoves ≥ g2.movesToWin then handleWin g2
  else ({ g2 with pendingCmd := g2.pendingCmd + 1 }, [Sig.success])

/-- `Game.triggerTrap(reason)`: stop play and the countdown, clear
Santa's pending timer, schedule the trap reset. -/
def triggerTrap (g : GameState) (reason : RC) : GameState × List Sig :=
  ({ g with
      isPlaying := false
      canMove := false
      timerOn := false
      santaTimer := none
      pendingTrapReset := g.pendingTrapReset + 1 }, [Sig.trap reason])

/-- `Game.handleMove(direction)`: guarded by `isPlaying`/`canMove`;
disables movement, validates (which clears Santa's pending timer as
its first action) and routes to the correct-move or trap path. -/
def handleMove (g : GameState) (dir : Dir) : GameState × List Sig :=
  if g.isPlaying = false ∨ g.canMove = false then (g, [])
  else
    let g2 := { g with canMove := false, santaTimer := none }
    let r := validateMove g2.santa dir
    if r.valid then handleCorrectMove g2
    else triggerTrap g2 r.reason

/-- `Game.handleTimeout(reason)`: `'patience'` counts as a correct
response (progress counter incremented, possibly winning, otherwise
success plus next command); `'timeout'` routes to the trap. -/
def handleTimeout (g : GameState) (reason : TReason) : GameState × List Sig :=
  if g.isPlaying = false then (g, [])
  else
    match reason with
    | TReason.patience =>
      let g1 := { g with correctMoves := g.correctMoves + 1 }
      if g1.correctMoves ≥ g1.movesToWin then handleWin g1
      else ({ g1 with pendingCmd := g1.pendingCmd + 1 }, [Sig.success])
    | TReason.timeout => triggerTrap g RC.timeout

/-- `Game.resetToStart()`: progress and position back to the first
waypoint, timer restarted, Santa reset, next command scheduled. -/
def resetToStart (g : GameState) : GameState × List Sig :=
  ({ g with
      correctMoves := 0
      pathIndex := 0
      timeRemaining := g.totalTime
      isPlaying := true
      player :=
        match SOLUTION_PATH.get? 0 with
        | some wp => poseAt wp
        | none => g.player
      santa := santaReset g.santa
      santaTimer := none
      timerOn := true
      pendingCmd := g.pendingCmd + 1 }, [])

/-- `Game.handleTimeUp()`. -/
def handleTimeUp (g : GameState) : GameState × List Sig :=
  triggerTrap g RC.time

/-- One second of the countdown interval. -/
def tickSecond (g : GameState) : GameState × List Sig :=
  if g.timerOn = false then (g, [])
  else
    let g1 := { g with timeRemaining := g.timeRemaining - 1 }
    if g1.timeRemaining ≤ 0 then handleTimeUp g1 else (g1, [])

/-- Santa's pending timer fires: the escalation stage marks the
command urgent and schedules the final timeout; the final stage calls
`handleTimeout` with the stored reason. -/
def santaFire (g : GameState) : GameState × List Sig :=
  match g.santaTimer with
  | none => (g, [])
  | some (TimerJob.escalate _) =>
    ({ g with
        santa := { g.santa with isUrgent := true }
        santaTimer := some (TimerJob.fire TReason.timeout) }, [])
  | some (TimerJob.fire r) =>
    handleTimeout { g with santaTimer := none } r

/-- Scheduler events: a pending `giveNextCommand` callback fires, the
player inputs a direction, Santa's timer fires, the trap-reset
callback fires, one second of countdown elapses. -/
inductive GEv : Type
  | cmdFire (d : Draws)
  | move (dir : Dir)
  | santaFire
  | trapDone
  | second
deriving DecidableEq, Repr

/-- One scheduler step (events fire only when their callback is
actually pending). -/
def step (g : GameState) : GEv → GameState × List Sig
  | GEv.cmdFire d =>
    if g.pendingCmd = 0 then (g, [])
    else giveNextCommand { g with pendingCmd := g.pendingCmd - 1 } d
  | GEv.move dir => handleMove g dir
  | GEv.santaFire => santaFire g
  | GEv.trapDone =>
    if g.pendingTrapReset = 0 then (g, [])
    else resetToStart { g with pendingTrapReset := g.pendingTrapReset - 1 }
  | GEv.second => tickSecond g

/-- Run a list of scheduler events, accumulating the emitted signals. -/
def run (g : GameState) : List GEv → GameState × List Sig
  | [] => (g, [])
  | ev :: rest =>
    let r := step g ev
    let r2 := run r.1 rest
    (r2.1, r.2 ++ r2.2)

/-- `Game.startGame()`: fresh controller (`new SantaController()` —
hard mode off in this variant), eight moves to win, sixty seconds,
first command scheduled. -/
def startState : GameState :=
  { santa := initialSantaState false
    isPlaying := true
    canMove := true
    correctMoves := 0
    movesToWin := 8
    pathIndex := 0
    player := poseAt ⟨1, 1, 0, WKind.start, some Dir.forward, [Dir.forward]⟩
    timeRemaining := 60
    totalTime := 60
    timerOn := true
    pendingCmd := 1
    pendingTrapReset := 0
    santaTimer := none
    winCount := 0 }

/-! ### Invariants of the game controller -/

/-- Any waypoint with a correct move sits strictly before the End
waypoint (index 8) in the nine-entry solution path. -/
lemma path_correctMove_lt (p : Nat) (wp : Waypoint)
    (h1 : SOLUTION_PATH.get? p = some wp) (h2 : wp.correctMove ≠ none) :
    p < 8 := by
  by_contra hlt
  push_neg at hlt
  rcases Nat.lt_or_ge p 9 with h9 | h9
  · have hp8 : p = 8 := by omega
    subst hp8
    have h8 : SOLUTION_PATH.get? 8
        = some ⟨3, 11, 1, WKind.finish, none, []⟩ := by decide
    rw [h8] at h1
    cases h1
    exact h2 rfl
  · have hnone : SOLUTION_PATH.get? p = none := by
      apply List.get?_eq_none.mpr
      have hlen : SOLUTION_PATH.length = 9 := by decide
      omega
    rw [hnone] at h1
    cases h1

/-- A valid `validateMove` verdict pins down the stored command state:
no Simon-Says trap, "Santa says" present, and the stored correct
direction equal to the player's direction. -/
lemma validateMove_valid_iff (s : SantaState) (dir : Dir) :
    (validateMove s dir).valid = true ↔
      s.isSimonSays = false ∧ s.isSantaSays = true ∧ s.correctDirection = some dir := by
  unfold validateMove
  split_ifs with h1 h2 h3
  · constructor
    · intro hf; cases hf
    · rintro ⟨hf, -, -⟩
      rw [h1] at hf
      cases hf
  · constructor
    · intro hf; cases hf
    · rintro ⟨-, hs, -⟩
      rw [h2] at hs
      cases hs
  · constructor
    · intro _
      exact ⟨by simpa using h1, by simpa using h2, h3.symm⟩
    · intro _
      rfl
  · constructor
    · intro hf; cases hf
    · rintro ⟨-, -, hc⟩
      exact absurd hc.symm h3

/-- Normalized form of `handleCorrectMove` (state projections of the
intermediate advance reduced). -/
lemma handleCorrectMove_eq (g : GameState) :
    handleCorrectMove g =
      if g.correctMoves + 1 ≥ g.movesToWin then
        handleWin (advancePlayer { g with correctMoves := g.correctMoves + 1 })
      else
        ({ advancePlayer { g with correctMoves := g.correctMoves + 1 } with
            pendingCmd := g.pendingCmd + 1 }, [Sig.success]) := rfl

/-- Normalized form of `handleTimeout`. -/
lemma handleTimeout_eq (g : GameState) (r : TReason) :
    handleTimeout g r =
      if g.isPlaying = false then (g, [])
      else
        match r with
        | TReason.patience =>
          if g.correctMoves + 1 ≥ g.movesToWin then
            handleWin { g with correctMoves := g.correctMoves + 1 }
          else
            ({ g with
                correctMoves := g.correctMoves + 1
                pendingCmd := g.pendingCmd + 1 }, [Sig.success])
        | TReason.timeout => triggerTrap g RC.timeout := rfl

/-- Normalized form of `handleMove`. -/
lemma handleMove_eq (g : GameState) (dir : Dir) :
    handleMove g dir =
      if g.isPlaying = false ∨ g.canMove = false then (g, [])
      else if (validateMove g.santa dir).valid = true then
        handleCorrectMove { g with canMove := false, santaTimer := none }
      else
        triggerTrap { g with canMove := false, santaTimer := none }
          (validateMove g.santa dir).reason := rfl

/-- Normalized form of `tickSecond`. -/
lemma tickSecond_eq (g : GameState) :
    tickSecond g =
      if g.timerOn = false then (g, [])
      else if g.timeRemaining - 1 ≤ 0 then
        handleTimeUp { g with timeRemaining := g.timeRemaining - 1 }
      else ({ g with timeRemaining := g.timeRemaining - 1 }, []) := rfl

lemma giveNextCommand_not_playing (g : GameState) (d : Draws)
    (hp : g.isPlaying = false) : giveNextCommand g d = (g, []) := by
  simp [giveNextCommand, hp]

lemma giveNextCommand_no_waypoint (g : GameState) (d : Draws)
    (hp : g.isPlaying = true) (hw : getCurrentWaypoint g = none) :
    giveNextCommand g d = (g, []) := by
  simp [giveNextCommand, hp, hw]

lemma giveNextCommand_no_move (g : GameState) (d : Draws) (wp : Waypoint)
    (hp : g.isPlaying = true) (hw : getCurrentWaypoint g = some wp)
    (hcm : wp.correctMove = none) :
    giveNextCommand g d = (g, []) := by
  simp [giveNextCommand, hp, hw, hcm]

lemma giveNextCommand_some (g : GameState) (d : Draws) (wp : Waypoint) (cm : Dir)
    (hp : g.isPlaying = true) (hw : getCurrentWaypoint g = some wp)
    (hcm : wp.correctMove = some cm) :
    giveNextCommand g d =
      ({ g with
          santa := (generateCommand g.santa cm wp.availableMoves d).2
          santaTimer := some
            (if (generateCommand g.santa cm wp.availableMoves d).1.isSantaSays then
              TimerJob.escalate (generateCommand g.santa cm wp.availableMoves d).1.direction
            else TimerJob.fire TReason.patience)
          canMove := true },
       [Sig.command (generateCommand g.santa cm wp.availableMoves d).1]) := by
  simp [giveNextCommand, hp, hw, hcm]

lemma santaFire_none (g : GameState) (hst : g.santaTimer = none) :
    santaFire g = (g, []) := by
  unfold santaFire
  rw [hst]

lemma santaFire_escalate (g : GameState) (dir : Dir)
    (hst : g.santaTimer = some (TimerJob.escalate dir)) :
    santaFire g =
      ({ g with
          santa := { g.santa with isUrgent := true }
          santaTimer := some (TimerJob.fire TReason.timeout) }, []) := by
  unfold santaFire
  rw [hst]

lemma santaFire_fire (g : GameState) (r : TReason)
    (hst : g.santaTimer = some (TimerJob.fire r)) :
    santaFire g = handleTimeout { g with santaTimer := none } r := by
  unfold santaFire
  rw [hst]

/-- The inductive invariant of the game controller: the win threshold
is fixed at eight; the waypoint index is bounded by the End index and
dominated by the progress counter; an enabled move with a stored
command implies the End waypoint has not been reached; trap-recovery
bookkeeping is single-shot and only while not playing; the countdown
only runs during play; and a signalled win has ended the attempt for
good. -/
def GInv (g : GameState) : Prop :=
  g.movesToWin = 8
  ∧ g.pathIndex ≤ 8
  ∧ g.pathIndex ≤ g.correctMoves
  ∧ (g.canMove = true → g.santa.correctDirection ≠ none → g.pathIndex < 8)
  ∧ (g.isPlaying = true → g.pendingTrapReset = 0)
  ∧ g.pendingTrapReset ≤ 1
  ∧ (g.timerOn = true → g.isPlaying = true)
  ∧ g.winCount ≤ 1
  ∧ (1 ≤ g.winCount → g.isPlaying = false)
  ∧ (1 ≤ g.winCount → g.pendingTrapReset = 0)
  ∧ (g.pathIndex = 8 → 1 ≤ g.winCount)

lemma startState_inv : GInv startState := by
  refine ⟨rfl, by decide, by decide, ?_, fun _ => rfl, by decide, fun _ => rfl,
    by decide, ?_, ?_, ?_⟩
  · intro _ hc
    exact absurd rfl hc
  · intro hw
    exact absurd hw (by decide)
  · intro hw
    exact absurd hw (by decide)
  · intro hp
    exact absurd hp (by decide)

lemma giveNextCommand_inv (g : GameState) (d : Draws) (h : GInv g) :
    GInv (giveNextCommand g d).1 := by
  by_cases hp : g.isPlaying = false
  · rw [giveNextCommand_not_playing g d hp]
    exact h
  · have hpt : g.isPlaying = true := by simpa using hp
    cases hw : getCurrentWaypoint g with
    | none =>
      rw [giveNextCommand_no_waypoint g d hpt hw]
      exact h
    | some wp =>
      cases hcm : wp.correctMove with
      | none =>
        rw [giveNextCommand_no_move g d wp hpt hw hcm]
        exact h
      | some cm =>
        rw [giveNextCommand_some g d wp cm hpt hw hcm]
        obtain ⟨h1, h2, h3, h4, h5, h6, h7, h8, h9, h10, h11⟩ := h
        refine ⟨h1, h2, h3, ?_, h5, h6, h7, h8, h9, h10, h11⟩
        intro _ _
        show g.pathIndex < 8
        exact path_correctMove_lt g.pathIndex wp hw
          (by rw [hcm]; exact fun hh => Option.noConfusion hh)

lemma triggerTrap_inv (g : GameState) (r : RC) (h : GInv g)
    (hplay : g.isPlaying = true) : GInv (triggerTrap g r).1 := by
  obtain ⟨h1, h2, h3, h4, h5, h6, h7, h8, h9, h10, h11⟩ := h
  refine ⟨h1, h2, h3, ?_, ?_, ?_, ?_, h8, ?_, ?_, ?_⟩
  · intro hc
    exact Bool.noConfusion hc
  · intro hpl
    exact Bool.noConfusion hpl
  · show g.pendingTrapReset + 1 ≤ 1
    have := h5 hplay
    omega
  · intro htr
    exact Bool.noConfusion htr
  · intro _
    rfl
  · intro hwc
    exact absurd (hplay.symm.trans (h9 hwc)) (by decide)
  · intro hp8
    show 1 ≤ g.winCount
    exact h11 hp8

lemma handleCorrectMove_inv (g : GameState) (h : GInv g)
    (hplay : g.isPlaying = true) (hcmv : g.canMove = false)
    (hlt : g.pathIndex < 8) : GInv (handleCorrectMove g).1 := by
  obtain ⟨h1, h2, h3, h4, h5, h6, h7, h8, h9, h10, h11⟩ := h
  have hw0 : g.winCount = 0 := by
    by_contra hwc
    exact absurd (hplay.symm.trans (h9 (by omega))) (by decide)
  rw [handleCorrectMove_eq]
  by_cases hwin : g.correctMoves + 1 ≥ g.movesToWin
  · rw [if_pos hwin]
    refine ⟨h1, ?_, ?_, ?_, ?_, h6, ?_, ?_, ?_, ?_, ?_⟩
    · show g.pathIndex + 1 ≤ 8
      omega
    · show g.pathIndex + 1 ≤ g.correctMoves + 1
      omega
    · intro hc
      exact Bool.noConfusion hc
    · intro hpl
      exact Bool.noConfusion hpl
    · intro htr
      exact Bool.noConfusion htr
    · show g.winCount + 1 ≤ 1
      omega
    · intro _
      rfl
    · intro _
      show g.pendingTrapReset = 0
      exact h5 hplay
    · intro _
      show 1 ≤ g.winCount + 1
      omega
  · rw [if_neg hwin]
    refine ⟨h1, ?_, ?_, ?_, h5, h6, h7, h8, h9, h10, ?_⟩
    · show g.pathIndex + 1 ≤ 8
      omega
    · show g.pathIndex + 1 ≤ g.correctMoves + 1
      omega
    · intro hc
      exact absurd (hcmv.symm.trans hc) (by decide)
    · intro hp8
      have hp8n : g.pathIndex + 1 = 8 := hp8
      have hge : g.correctMoves + 1 ≥ g.movesToWin := by
        rw [h1]
        omega
      exact absurd hge hwin

lemma handleTimeout_inv (g : GameState) (r : TReason) (h : GInv g) :
    GInv (handleTimeout g r).1 := by
  by_cases hp : g.isPlaying = false
  · rw [handleTimeout_eq, if_pos hp]
    exact h
  · have hplay : g.isPlaying = true := by simpa using hp
    obtain ⟨h1, h2, h3, h4, h5, h6, h7, h8, h9, h10, h11⟩ := h
    have hw0 : g.winCount = 0 := by
      by_contra hwc
      exact absurd (hplay.symm.trans (h9 (by omega))) (by decide)
    cases r with
    | patience =>
      rw [handleTimeout_eq, if_neg hp]
      dsimp only
      by_cases hwin : g.correctMoves + 1 ≥ g.movesToWin
      · rw [if_pos hwin]
        refine ⟨h1, h2, ?_, ?_, ?_, h6, ?_, ?_, ?_, ?_, ?_⟩
        · show g.pathIndex ≤ g.correctMoves + 1
          omega
        · intro hc
          exact Bool.noConfusion hc
        · intro hpl
          exact Bool.noConfusion hpl
        · intro htr
          exact Bool.noConfusion htr
        · show g.winCount + 1 ≤ 1
          omega
        · intro _
          rfl
        · intro _
          show g.pendingTrapReset = 0
          exact h5 hplay
        · intro hp8
          show 1 ≤ g.winCount + 1
          omega
      · rw [if_neg hwin]
        refine ⟨h1, h2, ?_, ?_, h5, h6, h7, h8, h9, h10, h11⟩
        · show g.pathIndex ≤ g.correctMoves + 1
          omega
        · intro hc hcd
          show g.pathIndex < 8
          exact h4 hc hcd
    | timeout =>
      rw [handleTimeout_eq, if_neg hp]
      exact triggerTrap_inv g RC.timeout
        ⟨h1, h2, h3, h4, h5, h6, h7, h8, h9, h10, h11⟩ hplay

lemma handleMove_inv (g : GameState) (dir : Dir) (h : GInv g) :
    GInv (handleMove g dir).1 := by
  rw [handleMove_eq]
  by_cases hg : g.isPlaying = false ∨ g.canMove = false
  · rw [if_pos hg]
    exact h
  · rw [if_neg hg]
    push_neg at hg
    obtain ⟨hp, hc⟩ := hg
    have hplay : g.isPlaying = true := by simpa using hp
    have hcanm : g.canMove = true := by simpa using hc
    obtain ⟨h1, h2, h3, h4, h5, h6, h7, h8, h9, h10, h11⟩ := h
    have hg2 : GInv { g with canMove := false, santaTimer := none } := by
      refine ⟨h1, h2, h3, ?_, h5, h6, h7, h8, h9, h10, h11⟩
      intro hcf
      exact Bool.noConfusion hcf
    by_cases hv : (validateMove g.santa dir).valid = true
    · rw [if_pos hv]
      have hvc := (validateMove_valid_iff g.santa dir).mp hv
      have hlt : g.pathIndex < 8 := by
        apply h4 hcanm
        rw [hvc.2.2]
        exact fun hh => Option.noConfusion hh
      exact handleCorrectMove_inv _ hg2 hplay rfl hlt
    · rw [if_neg hv]
      exact triggerTrap_inv _ _ hg2 hplay

lemma resetToStart_inv (g : GameState) (h1 : g.movesToWin = 8)
    (hw0 : g.winCount = 0)
    (hpt : g.pendingTrapReset = 0) (h6 : g.pendingTrapReset ≤ 1) :
    GInv (resetToStart g).1 := by
  refine ⟨h1, ?_, ?_, ?_, ?_, ?_, ?_, ?_, ?_, ?_, ?_⟩
  · show (0 : Nat) ≤ 8
    omega
  · show (0 : Nat) ≤ 0
    omega
  · intro _ hcd
    exact absurd rfl hcd
  · intro _
    exact hpt
  · show g.pendingTrapReset ≤ 1
    exact h6
  · intro _
    rfl
  · show g.winCount ≤ 1
    omega
  · intro hwc
    have : (1 : Nat) ≤ g.winCount := hwc
    omega
  · intro _
    exact hpt
  · intro hp8
    exact absurd (show (0 : Nat) = 8 from hp8) (by decide)

lemma tickSecond_inv (g : GameState) (h : GInv g) : GInv (tickSecond g).1 := by
  rw [tickSecond_eq]
  by_cases ht : g.timerOn = false
  · rw [if_pos ht]
    exact h
  · rw [if_neg ht]
    have htr : g.timerOn = true := by simpa using ht
    have hplay : g.isPlaying = true := h.2.2.2.2.2.2.1 htr
    by_cases hto : g.timeRemaining - 1 ≤ 0
    · rw [if_pos hto]
      unfold handleTimeUp
      exact triggerTrap_inv _ RC.time h hplay
    · rw [if_neg hto]
      exact h

lemma step_inv (g : GameState) (ev : GEv) (h : GInv g) : GInv (step g ev).1 := by
  cases ev with
  | cmdFire d =>
    dsimp only [step]
    by_cases hpc : g.pendingCmd = 0
    · rw [if_pos hpc]
      exact h
    · rw [if_neg hpc]
      exact giveNextCommand_inv _ d h
  | move dir => exact handleMove_inv g dir h
  | santaFire =>
    show GInv (santaFire g).1
    cases hst : g.santaTimer with
    | none =>
      rw [santaFire_none g hst]
      exact h
    | some j =>
      cases j with
      | escalate dir =>
        rw [santaFire_escalate g dir hst]
        exact h
      | fire r =>
        rw [santaFire_fire g r hst]
        exact handleTimeout_inv _ r h
  | trapDone =>
    dsimp only [step]
    by_cases hpt : g.pendingTrapReset = 0
    · rw [if_pos hpt]
      exact h
    · rw [if_neg hpt]
      obtain ⟨h1, h2, h3, h4, h5, h6, h7, h8, h9, h10, h11⟩ := h
      have hw0 : g.winCount = 0 := by
        by_contra hwc
        exact hpt (h10 (by omega))
      exact resetToStart_inv _ h1 hw0 (by show g.pendingTrapReset - 1 = 0; omega)
        (by show g.pendingTrapReset - 1 ≤ 1; omega)
  | second => exact tickSecond_inv g h

lemma run_inv (g : GameState) (evs : List GEv) (h : GInv g) :
    GInv (run g evs).1 := by
  induction evs generalizing g with
  | nil => exact h
  | cons ev rest ih => exact ih (step g ev).1 (step_inv g ev h)

/-- Number of win signals in an emitted signal list. -/
def winSigs (l : List Sig) : Nat :=
  (l.filter (fun s => decide (s = Sig.winSig))).length

lemma handleCorrectMove_winCount (g : GameState) :
    (handleCorrectMove g).1.winCount
      = g.winCount + winSigs (handleCorrectMove g).2 := by
  rw [handleCorrectMove_eq]
  by_cases hwin : g.correctMoves + 1 ≥ g.movesToWin
  · rw [if_pos hwin]
    simp [handleWin, advancePlayer, winSigs]
  · rw [if_neg hwin]
    simp [advancePlayer, winSigs]

lemma handleTimeout_winCount (g : GameState) (r : TReason) :
    (handleTimeout g r).1.winCount
      = g.winCount + winSigs (handleTimeout g r).2 := by
  rw [handleTimeout_eq]
  by_cases hp : g.isPlaying = false
  · rw [if_pos hp]
    simp [winSigs]
  · rw [if_neg hp]
    cases r with
    | patience =>
      dsimp only
      by_cases hwin : g.correctMoves + 1 ≥ g.movesToWin
      · rw [if_pos hwin]
        simp [handleWin, winSigs]
      · rw [if_neg hwin]
        simp [winSigs]
    | timeout => simp [triggerTrap, winSigs]

lemma giveNextCommand_winCount (g : GameState) (d : Draws) :
    (giveNextCommand g d).1.winCount
      = g.winCount + winSigs (giveNextCommand g d).2 := by
  by_cases hp : g.isPlaying = false
  · rw [giveNextCommand_not_playing g d hp]
    simp [winSigs]
  · have hpt : g.isPlaying = true := by simpa using hp
    cases hw : getCurrentWaypoint g with
    | none =>
      rw [giveNextCommand_no_waypoint g d hpt hw]
      simp [winSigs]
    | some wp =>
      cases hcm : wp.correctMove with
      | none =>
        rw [giveNextCommand_no_move g d wp hpt hw hcm]
        simp [winSigs]
      | some cm =>
        rw [giveNextCommand_some g d wp cm hpt hw hcm]
        simp [winSigs]

lemma step_winCount (g : GameState) (ev : GEv) :
    (step g ev).1.winCount = g.winCount + winSigs (step g ev).2 := by
  cases ev with
  | cmdFire d =>
    dsimp only [step]
    by_cases hpc : g.pendingCmd = 0
    · rw [if_pos hpc]
      simp [winSigs]
    · rw [if_neg hpc]
      exact giveNextCommand_winCount _ d
  | move dir =>
    show (handleMove g dir).1.winCount = g.winCount + winSigs (handleMove g dir).2
    rw [handleMove_eq]
    by_cases hg : g.isPlaying = false ∨ g.canMove = false
    · rw [if_pos hg]
      simp [winSigs]
    · rw [if_neg hg]
      by_cases hv : (validateMove g.santa dir).valid = true
      · rw [if_pos hv]
        exact handleCorrectMove_winCount _
      · rw [if_neg hv]
        simp [triggerTrap, winSigs]
  | santaFire =>
    show (santaFire g).1.winCount = g.winCount + winSigs (santaFire g).2
    cases hst : g.santaTimer with
    | none =>
      rw [santaFire_none g hst]
      simp [winSigs]
    | some j =>
      cases j with
      | escalate dir =>
        rw [santaFire_escalate g dir hst]
        simp [winSigs]
      | fire r =>
        rw [santaFire_fire g r hst]
        exact handleTimeout_winCount _ r
  | trapDone =>
    dsimp only [step]
    by_cases hpt : g.pendingTrapReset = 0
    · rw [if_pos hpt]
      simp [winSigs]
    · rw [if_neg hpt]
      simp [resetToStart, winSigs]
  | second =>
    show (tickSecond g).1.winCount = g.winCount + winSigs (tickSecond g).2
    rw [tickSecond_eq]
    by_cases ht : g.timerOn = false
    · rw [if_pos ht]
      simp [winSigs]
    · rw [if_neg ht]
      by_cases hto : g.timeRemaining - 1 ≤ 0
      · rw [if_pos hto]
        simp [handleTimeUp, triggerTrap, winSigs]
      · rw [if_neg hto]
        simp [winSigs]

lemma run_fst (g : GameState) (ev : GEv) (rest : List GEv) :
    (run g (ev :: rest)).1 = (run (step g ev).1 rest).1 := rfl

lemma run_snd (g : GameState) (ev : GEv) (rest : List GEv) :
    (run g (ev :: rest)).2 = (step g ev).2 ++ (run (step g ev).1 rest).2 := rfl

lemma winSigs_append (l1 l2 : List Sig) :
    winSigs (l1 ++ l2) = winSigs l1 + winSigs l2 := by
  simp [winSigs, List.filter_append]

lemma run_winCount (evs : List GEv) (g : GameState) :
    (run g evs).1.winCount = g.winCount + winSigs (run g evs).2 := by
  induction evs generalizing g with
  | nil => simp [run, winSigs]
  | cons ev rest ih =>
    rw [run_fst, run_snd, winSigs_append, ih (step g ev).1, step_winCount]
    omega

lemma step_after_win (g : GameState) (ev : GEv) (h : GInv g)
    (hw : 1 ≤ g.winCount) :
    (step g ev).2 = [] ∧ (step g ev).1.winCount = g.winCount := by
  obtain ⟨h1, h2, h3, h4, h5, h6, h7, h8, h9, h10, h11⟩ := h
  have hpl : g.isPlaying = false := h9 hw
  have hpt : g.pendingTrapReset = 0 := h10 hw
  have htr : g.timerOn = false := by
    cases htry : g.timerOn
    · rfl
    · exact absurd (hpl.symm.trans (h7 htry)) (by decide)
  cases ev with
  | cmdFire d =>
    dsimp only [step]
    by_cases hpc : g.pendingCmd = 0
    · rw [if_pos hpc]
      exact ⟨rfl, rfl⟩
    · rw [if_neg hpc,
        giveNextCommand_not_playing { g with pendingCmd := g.pendingCmd - 1 } d hpl]
      exact ⟨rfl, rfl⟩
  | move dir =>
    show (handleMove g dir).2 = [] ∧ (handleMove g dir).1.winCount = g.winCount
    rw [handleMove_eq, if_pos (Or.inl hpl)]
    exact ⟨rfl, rfl⟩
  | santaFire =>
    show (santaFire g).2 = [] ∧ (santaFire g).1.winCount = g.winCount
    cases hst : g.santaTimer with
    | none =>
      rw [santaFire_none g hst]
      exact ⟨rfl, rfl⟩
    | some j =>
      cases j with
      | escalate dir =>
        rw [santaFire_escalate g dir hst]
        exact ⟨rfl, rfl⟩
      | fire r =>
        rw [santaFire_fire g r hst, handleTimeout_eq, if_pos hpl]
        exact ⟨rfl, rfl⟩
  | trapDone =>
    dsimp only [step]
    rw [if_pos hpt]
    exact ⟨rfl, rfl⟩
  | second =>
    show (tickSecond g).2 = [] ∧ (tickSecond g).1.winCount = g.winCount
    rw [tickSecond_eq, if_pos htr]
    exact ⟨rfl, rfl⟩

lemma run_after_win (evs : List GEv) (g : GameState) (h : GInv g)
    (hw : 1 ≤ g.winCount) : (run g evs).2 = [] := by
  induction evs generalizing g with
  | nil => rfl
  | cons ev rest ih =>
    rw [run_snd]
    obtain ⟨hs, hwc⟩ := step_after_win g ev h hw
    rw [hs, ih (step g ev).1 (step_inv g ev h) (by omega)]
    rfl

/-- Random draws forcing an authorized command (roll above the trick
probability). -/
def dSanta : Draws := ⟨1, 0, 0, 0, 0⟩

/-- Random draws forcing a trick command (roll below the trick
probability; the mixture then picks the fully random branch). -/
def dTrick : Draws := ⟨0, mkRat 1 2, 1, 0, 0⟩

/-- A clean winning attempt: eight authorized commands, each answered
with the waypoint's correct move. -/
def c4WinTrace : List GEv :=
  [GEv.cmdFire dSanta, GEv.move Dir.forward,
   GEv.cmdFire dSanta, GEv.move Dir.forward,
   GEv.cmdFire dSanta, GEv.move Dir.right,
   GEv.cmdFire dSanta, GEv.move Dir.forward,
   GEv.cmdFire dSanta, GEv.move Dir.left,
   GEv.cmdFire dSanta, GEv.move Dir.forward,
   GEv.cmdFire dSanta, GEv.move Dir.right,
   GEv.cmdFire dSanta, GEv.move Dir.forward]

/-- An attempt with one patience success (trick command, no player
response) followed by only seven correct moves. -/
def c4CoTrace : List GEv :=
  [GEv.cmdFire dTrick, GEv.santaFire,
   GEv.cmdFire dSanta, GEv.move Dir.forward,
   GEv.cmdFire dSanta, GEv.move Dir.forward,
   GEv.cmdFire dSanta, GEv.move Dir.right,
   GEv.cmdFire dSanta, GEv.move Dir.forward,
   GEv.cmdFire dSanta, GEv.move Dir.left,
   GEv.cmdFire dSanta, GEv.move Dir.forward,
   GEv.cmdFire dSanta, GEv.move Dir.right]

/-- C4 counterexample: after one patience success and seven correct
moves the win signal fires although the player stands at waypoint 7, a
corridor — not the End waypoint.  The win check counts correct
responses (`correctMoves >= movesToWin`), and patience successes feed
that counter without advancing the waypoint index, so "win fires only
when the End waypoint is reached" is false. -/
theorem c4_counterexample :
    winSigs (run startState c4CoTrace).2 = 1
    ∧ (run startState c4CoTrace).1.pathIndex = 7
    ∧ (getCurrentWaypoint (run startState c4CoTrace).1).map Waypoint.type
        = some WKind.corridor := by
  refine ⟨by decide, by decide, by decide⟩

/-- C4 (amended): a validated correct move never advances `pathIndex`
past `path.length - 1` (= 8); the win signal fires at most once per
run; reaching the End waypoint always implies the win has fired (but
the converse fails — see the counterexample — because patience
successes also feed the `correctMoves` threshold); and after a win
nothing further is emitted — in particular no command is issued —
until an external restart. -/
theorem c4_waypoint_bound_and_win_unique (evs : List GEv) :
    (run startState evs).1.pathIndex ≤ 8
    ∧ winSigs (run startState evs).2 ≤ 1
    ∧ ((run startState evs).1.pathIndex = 8 → winSigs (run startState evs).2 = 1)
    ∧ (1 ≤ winSigs (run startState evs).2 →
        ∀ evs2 : List GEv, (run (run startState evs).1 evs2).2 = []) := by
  have hinv := run_inv startState evs startState_inv
  have hwc : (run startState evs).1.winCount = winSigs (run startState evs).2 := by
    have h := run_winCount evs startState
    rw [show startState.winCount = 0 from rfl, Nat.zero_add] at h
    exact h
  refine ⟨hinv.2.1, ?_, ?_, ?_⟩
  · have h8 := hinv.2.2.2.2.2.2.2.1
    omega
  · intro hp8
    have h8 := hinv.2.2.2.2.2.2.2.1
    have h11 := hinv.2.2.2.2.2.2.2.2.2.2 hp8
    omega
  · intro hws evs2
    exact run_after_win evs2 _ hinv (by omega)

/-- Concrete instance of the amended C4: the clean winning attempt
ends at the End waypoint with exactly one win signal, and a further
scheduled command callback emits nothing. -/
theorem c4_waypoint_bound_and_win_unique_witness :
    (run startState c4WinTrace).1.pathIndex = 8
    ∧ winSigs (run startState c4WinTrace).2 = 1
    ∧ (run (run startState c4WinTrace).1 [GEv.cmdFire dSanta]).2 = [] := by
  have h := c4_waypoint_bound_and_win_unique c4WinTrace
  have hp : (run startState c4WinTrace).1.pathIndex = 8 := by decide
  have hw := h.2.2.1 hp
  exact ⟨hp, hw, h.2.2.2 (by omega) [GEv.cmdFire dSanta]⟩

/-- C3 counterexample: resolving a trick turn by the patience timeout
at the very first waypoint leaves `pathIndex` and the player pose
unchanged but increments the `correctMoves` step counter from 0 to 1 —
one beyond what the waypoint index (still 0) represents — because
patience successes count toward the same `movesToWin` threshold as
real moves. -/
theorem c3_counterexample :
    (run startState [GEv.cmdFire dTrick]).1.correctMoves = 0
    ∧ (handleTimeout (run startState [GEv.cmdFire dTrick]).1
        TReason.patience).1.correctMoves = 1
    ∧ (handleTimeout (run startState [GEv.cmdFire dTrick]).1
        TReason.patience).1.pathIndex
      = (run startState [GEv.cmdFire dTrick]).1.pathIndex
    ∧ (handleTimeout (run startState [GEv.cmdFire dTrick]).1
        TReason.patience).1.player
      = (run startState [GEv.cmdFire dTrick]).1.player := by
  refine ⟨by decide, by decide, by decide, by decide⟩

/-- C3 (amended): a patience-success timeout changes no player
position — `pathIndex` and the pose are untouched — but it increments
the shared `correctMoves` step counter by one; below the win threshold
it then signals continue exactly as a correct move does (same success
signal, same single scheduled next command), and at the threshold it
signals win instead. -/
theorem c3_patience_success_frame (g : GameState) (h : g.isPlaying = true) :
    (handleTimeout g TReason.patience).1.pathIndex = g.pathIndex
    ∧ (handleTimeout g TReason.patience).1.player = g.player
    ∧ (handleTimeout g TReason.patience).1.correctMoves = g.correctMoves + 1
    ∧ (g.correctMoves + 1 < g.movesToWin →
        (handleTimeout g TReason.patience).2 = [Sig.success]
        ∧ (handleTimeout g TReason.patience).1.pendingCmd = g.pendingCmd + 1
        ∧ (handleTimeout g TReason.patience).2 = (handleCorrectMove g).2)
    ∧ (g.movesToWin ≤ g.correctMoves + 1 →
        (handleTimeout g TReason.patience).2 = [Sig.winSig]) := by
  have hp : ¬(g.isPlaying = false) := by simp [h]
  rw [handleTimeout_eq, if_neg hp]
  dsimp only
  by_cases hwin : g.correctMoves + 1 ≥ g.movesToWin
  · rw [if_pos hwin]
    refine ⟨rfl, rfl, rfl, ?_, fun _ => rfl⟩
    intro hlt
    exact absurd hwin (by omega)
  · rw [if_neg hwin]
    refine ⟨rfl, rfl, rfl, ?_, ?_⟩
    · intro _
      refine ⟨rfl, rfl, ?_⟩
      rw [handleCorrectMove_eq, if_neg hwin]
    · intro hge
      exact absurd hge (by omega)

/-- Concrete instance of the amended C3 at the initial state. -/
theorem c3_patience_success_frame_witness :
    startState.isPlaying = true
    ∧ (handleTimeout startState TReason.patience).1.correctMoves = 1
    ∧ (handleTimeout startState TReason.patience).1.pathIndex = 0
    ∧ (handleTimeout startState TReason.patience).2 = [Sig.success] :=
  ⟨rfl, (c3_patience_success_frame startState rfl).2.2.1,
   (c3_patience_success_frame startState rfl).1,
   ((c3_patience_success_frame startState rfl).2.2.2.1 (by decide)).1⟩

/-- C8: a command that expires with no response delivers a reason that
distinguishes the two cases — the final timeout of an authorized
command is `'timeout'`, while a trick / Simon-Says command times out
with `'patience'` — and the consumer routes them apart: `'timeout'`
triggers the trap with reason code `timeout`, while `'patience'` never
emits a trap signal (it is the success path). -/
theorem c8_timeout_reason_distinguishes (w : World) (cm : Dir) (av : List Dir)
    (d : Draws) (hq : w.santa.urgencyTimeout = none) (ht : w.timers = []) :
    ((generateCommand w.santa cm av d).1.isSantaSays = true →
      (tickW (tickW (generateCommandW w cm av d))).log.getLast?
        = some (Hap.timedOut TReason.timeout))
    ∧ ((generateCommand w.santa cm av d).1.isSantaSays = false →
      (tickW (generateCommandW w cm av d)).log.getLast?
        = some (Hap.timedOut TReason.patience))
    ∧ (∀ g : GameState, g.isPlaying = true →
        (handleTimeout g TReason.timeout).2 = [Sig.trap RC.timeout]
        ∧ ∀ rc : RC, Sig.trap rc ∉ (handleTimeout g TReason.patience).2) := by
  refine ⟨?_, ?_, ?_⟩
  · intro hs
    rw [tickW2_genW_santa w cm av d hq ht hs]
    simp
  · intro hs
    rw [tickW_genW_trick w cm av d hq ht hs]
    simp
  · intro g hg
    have hp : ¬(g.isPlaying = false) := by simp [hg]
    constructor
    · rw [handleTimeout_eq, if_neg hp]
      rfl
    · intro rc
      rw [handleTimeout_eq, if_neg hp]
      by_cases hwin : g.correctMoves + 1 ≥ g.movesToWin
      · rw [if_pos hwin]
        simp [handleWin]
      · rw [if_neg hwin]
        simp

/-- Concrete instance of C8: a trick command expires with reason
`'patience'`, an authorized one with `'timeout'`, and the game routes
`'timeout'` to the trap. -/
theorem c8_timeout_reason_distinguishes_witness :
    (tickW (generateCommandW (initialWorld false) Dir.forward [Dir.forward]
        dTrick)).log.getLast? = some (Hap.timedOut TReason.patience)
    ∧ (tickW (tickW (generateCommandW (initialWorld false) Dir.forward
        [Dir.forward] dSanta))).log.getLast? = some (Hap.timedOut TReason.timeout)
    ∧ (handleTimeout startState TReason.timeout).2 = [Sig.trap RC.timeout] :=
  ⟨(c8_timeout_reason_distinguishes (initialWorld false) Dir.forward [Dir.forward]
      dTrick rfl rfl).2.1 (by decide),
   (c8_timeout_reason_distinguishes (initialWorld false) Dir.forward [Dir.forward]
      dSanta rfl rfl).1 (by decide),
   ((c8_timeout_reason_distinguishes (initialWorld false) Dir.forward [Dir.forward]
      dSanta rfl rfl).2.2 startState rfl).1⟩

/-! ### Trap recovery in the newer game controller (`src/unnamed/part_004`)

The repository contains a newer `Game` controller variant (the unnamed
source file `part_004`), which carries the hard-mode toggle: on a trap
its `triggerTrap` adds a 10-second time penalty, then after a fixed
3000 ms display delay invokes `resetToStart()` in hard mode and
`resumeFromCurrentPosition()` in normal mode; both reset Santa,
restart the timer and schedule the next command (1000 ms delay). -/

/-- The mutable state of the newer `Game` variant that the trap
recovery touches.  `pendingRecovery` holds the delay of the scheduled
recovery callback. -/
structure Game2State : Type where
  santa : SantaState
  hardMode : Bool
  isPlaying : Bool
  canMove : Bool
  pathIndex : Nat
  player : Pose
  timeElapsed : Int
  timerOn : Bool
  mazePath : List Waypoint
  pendingCmd : Nat
  pendingRecovery : Option Nat
  santaTimer : Option TimerJob
deriving DecidableEq, Repr

/-- `Game.triggerTrap` of the newer variant: stop play and the timer,
clear Santa's pending timer, add the 10 s penalty, schedule the
recovery after the fixed 3000 ms display delay. -/
def triggerTrap2 (g : Game2State) (reason : RC) : Game2State :=
  let _ := reason
  { g with
      isPlaying := false
      canMove := false
      timerOn := false
      santaTimer := none
      timeElapsed := g.timeElapsed + 10
      pendingRecovery := some 3000 }

/-- `Game.resetToStart` of the newer variant: waypoint index to 0,
pose recomputed from the first waypoint, Santa reset, timer restarted
(elapsed time kept), next command scheduled. -/
def resetToStart2 (g : Game2State) : Game2State :=
  { g with
      pathIndex := 0
      isPlaying := true
      player :=
        match g.mazePath.head? with
        | some wp => poseAt wp
        | none => g.player
      santa := santaReset g.santa
      santaTimer := none
      timerOn := true
      pendingCmd := g.pendingCmd + 1 }

/-- `Game.resumeFromCurrentPosition` of the newer variant: position
and waypoint index untouched, Santa reset, timer restarted, next
command scheduled. -/
def resumeFromCurrentPosition (g : Game2State) : Game2State :=
  { g with
      isPlaying := true
      santa := santaReset g.santa
      santaTimer := none
      timerOn := true
      pendingCmd := g.pendingCmd + 1 }

/-- The scheduled recovery callback fires: hard mode resets to the
start, normal mode resumes in place. -/
def trapRecoveryFires (g : Game2State) : Game2State :=
  match g.pendingRecovery with
  | none => g
  | some _ =>
    let g1 := { g with pendingRecovery := none }
    if g1.hardMode then resetToStart2 g1 else resumeFromCurrentPosition g1

/-- C9: on failure the recovery position is a configured difficulty
switch.  `triggerTrap` schedules the recovery after the fixed 3000 ms
display delay; when it fires, hard mode invokes `resetToStart`
(`pathIndex` becomes 0 and the pose is recomputed from the start
waypoint) while normal mode invokes `resumeFromCurrentPosition`
(`pathIndex` and pose unchanged); both then request the next command.
Both behaviors exist in the source as configuration. -/
theorem c9_recovery_difficulty_switch (g : Game2State) (r : RC) (wp : Waypoint)
    (hhead : g.mazePath.head? = some wp) :
    (triggerTrap2 g r).pendingRecovery = some 3000
    ∧ (g.hardMode = true →
        trapRecoveryFires (triggerTrap2 g r)
          = resetToStart2 { triggerTrap2 g r with pendingRecovery := none }
        ∧ (trapRecoveryFires (triggerTrap2 g r)).pathIndex = 0
        ∧ (trapRecoveryFires (triggerTrap2 g r)).player = poseAt wp
        ∧ (trapRecoveryFires (triggerTrap2 g r)).pendingCmd = g.pendingCmd + 1
        ∧ (trapRecoveryFires (triggerTrap2 g r)).isPlaying = true)
    ∧ (g.hardMode = false →
        trapRecoveryFires (triggerTrap2 g r)
          = resumeFromCurrentPosition { triggerTrap2 g r with pendingRecovery := none }
        ∧ (trapRecoveryFires (triggerTrap2 g r)).pathIndex = g.pathIndex
        ∧ (trapRecoveryFires (triggerTrap2 g r)).player = g.player
        ∧ (trapRecoveryFires (triggerTrap2 g r)).pendingCmd = g.pendingCmd + 1
        ∧ (trapRecoveryFires (triggerTrap2 g r)).isPlaying = true) := by
  refine ⟨rfl, ?_, ?_⟩
  · intro hh
    have heq : trapRecoveryFires (triggerTrap2 g r)
        = resetToStart2 { triggerTrap2 g r with pendingRecovery := none } := by
      unfold trapRecoveryFires
      rw [show (triggerTrap2 g r).pendingRecovery = some 3000 from rfl]
      dsimp only
      rw [if_pos (show ({ triggerTrap2 g r with
        pendingRecovery := none } : Game2State).hardMode = true from hh)]
    refine ⟨heq, ?_, ?_, ?_, ?_⟩ <;> rw [heq]
    · rfl
    · show (match ({ triggerTrap2 g r with
          pendingRecovery := none } : Game2State).mazePath.head? with
        | some wp => poseAt wp
        | none => ({ triggerTrap2 g r with
            pendingRecovery := none } : Game2State).player) = poseAt wp
      rw [show ({ triggerTrap2 g r with
        pendingRecovery := none } : Game2State).mazePath.head?
          = some wp from hhead]
    · rfl
    · rfl
  · intro hh
    have heq : trapRecoveryFires (triggerTrap2 g r)
        = resumeFromCurrentPosition { triggerTrap2 g r with pendingRecovery := none } := by
      unfold trapRecoveryFires
      rw [show (triggerTrap2 g r).pendingRecovery = some 3000 from rfl]
      dsimp only
      rw [if_neg (show ¬({ triggerTrap2 g r with
        pendingRecovery := none } : Game2State).hardMode = true by
          rw [show ({ triggerTrap2 g r with
            pendingRecovery := none } : Game2State).hardMode = g.hardMode from rfl, hh]
          exact fun x => Bool.noConfusion x)]
    refine ⟨heq, ?_, ?_, ?_, ?_⟩ <;> rw [heq] <;> rfl

/-- Concrete instance of C9 in hard mode on the predefined path. -/
theorem c9_recovery_difficulty_switch_witness :
    ({ santa := initialSantaState true, hardMode := true, isPlaying := true,
       canMove := true, pathIndex := 4, player := ⟨7, 13, 1⟩, timeElapsed := 20,
       timerOn := true, mazePath := SOLUTION_PATH, pendingCmd := 0,
       pendingRecovery := none, santaTimer := none } : Game2State).mazePath.head?
      = some ⟨1, 1, 0, WKind.start, some Dir.forward, [Dir.forward]⟩
    ∧ (trapRecoveryFires (triggerTrap2
        { santa := initialSantaState true, hardMode := true, isPlaying := true,
          canMove := true, pathIndex := 4, player := ⟨7, 13, 1⟩, timeElapsed := 20,
          timerOn := true, mazePath := SOLUTION_PATH, pendingCmd := 0,
          pendingRecovery := none, santaTimer := none } RC.didnt_say)).pathIndex = 0
    ∧ (trapRecoveryFires (triggerTrap2
        { santa := initialSantaState true, hardMode := true, isPlaying := true,
          canMove := true, pathIndex := 4, player := ⟨7, 13, 1⟩, timeElapsed := 20,
          timerOn := true, mazePath := SOLUTION_PATH, pendingCmd := 0,
          pendingRecovery := none, santaTimer := none } RC.didnt_say)).player
      = poseAt ⟨1, 1, 0, WKind.start, some Dir.forward, [Dir.forward]⟩ := by
  refine ⟨by decide, ?_, ?_⟩
  · exact ((c9_recovery_difficulty_switch _ RC.didnt_say
      ⟨1, 1, 0, WKind.start, some Dir.forward, [Dir.forward]⟩ (by decide)).2.1 rfl).2.1
  · exact ((c9_recovery_difficulty_switch _ RC.didnt_say
      ⟨1, 1, 0, WKind.start, some Dir.forward, [Dir.forward]⟩ (by decide)).2.1 rfl).2.2.1
